import Mathlib

/-!
Shallow embedding of `shop/views/dashboard.py` (django-shop dashboard):
a `DashboardRouter` route table and the `ProductsDashboard` model view-set
with its serializer selection, breadcrumb construction, permission check
and the `new` / `create` / `retrieve` / `update` actions.

Framework-provided machinery (Django / DRF) that the file merely calls is
modelled abstractly: URL reversal and deployment configuration live in a
`ShopConfig` record, the ORM fetch behind `get_object()` is the `fetched`
field of the view-set state, and the serializer's validation verdict on
the posted data is the `valid` flag carried by that data.  Class-level
mutable state (`Meta.fields` of the serializer classes, reassigned by
`get_serializer` for the list view) is threaded explicitly as a
`ClassState` association list from serializer-class name to field list.
-/

/-- Django model metadata (`._meta` options): identity labels and verbose
names, consumed reflectively by the dashboard. -/
structure ModelMeta where
  app_label : String
  model_name : String
  label_lower : String
  verbose_name : String
  verbose_name_plural : String
deriving DecidableEq, Repr

/-- A DRF serializer class, identified by name, together with the model
metadata reachable through its `Meta.model._meta`. -/
structure SerializerClass where
  name : String
  metaModel : ModelMeta
deriving DecidableEq, Repr

/-- Deployment-level configuration and framework services the dashboard
file imports: `app_settings.APP_LABEL`, the product model's `._meta`
options, the product model's `Meta.verbose_name_plural` class attribute
(read directly on line 140 of the source), and Django URL reversal. -/
structure ShopConfig where
  APP_LABEL : String
  productOptions : ModelMeta
  productMetaVerboseNamePlural : String
  reverse : String → String

/-- The `shop.serializers.bases.ProductSerializer` class used as the
default of both `dict.get` lookups in `get_serializer_class`; its
`Meta.model` is the product model. -/
def ProductSerializer (cfg : ShopConfig) : SerializerClass :=
  { name := "shop.serializers.bases.ProductSerializer"
  , metaModel := cfg.productOptions }

/-- A fetched model instance: its `str()` rendering and its `._meta`. -/
structure Instance where
  strRepr : String
  options : ModelMeta
deriving DecidableEq, Repr

/-- The posted form data, abstracted to the verdict the bound serializer's
`is_valid()` reaches on it. -/
structure RequestData where
  valid : Bool
deriving DecidableEq, Repr

/-- The authenticated user, abstracted to the framework's `has_perm`
oracle. -/
structure User where
  has_perm : String → Bool

/-- The incoming HTTP request as the dashboard reads it: query parameters
(`request.GET`), posted data (`request.data`), `request.path_info` and
`request.user`. -/
structure Request where
  GET : List (String × String)
  data : RequestData
  path_info : String
  user : User

/-- State of a `ProductsDashboard` view-set instance at dispatch time:
the `suffix` initkwarg set by the router, the configured serializer
classes, the optional `list_display` / `list_display_links` attributes
(absent on the base class, `hasattr` checks in the source), the request,
and the instance `self.get_object()` fetches from the queryset. -/
structure ProductsDashboard where
  suffix : String
  list_serializer_class : SerializerClass
  detail_serializer_classes : List (String × SerializerClass)
  list_display : Option (List String)
  list_display_links : Option (List String)
  request : Request
  fetched : Instance

/-- ORM fetch `self.get_object()`: returns the instance resolved from the
queryset and the URL's lookup kwarg. -/
def get_object (vs : ProductsDashboard) : Instance :=
  vs.fetched

/-- Python `d.get(key, default)` on a string-keyed dict. -/
def dictGet (d : List (String × SerializerClass)) (key : String)
    (dflt : SerializerClass) : SerializerClass :=
  match d.find? (fun kv => kv.1 = key) with
  | some kv => kv.2
  | none => dflt

/-- Python `d.get(key, default)` where the key may be `None`
(`request.GET.get('model')` returns `None` when the parameter is absent);
the dict's keys are strings, so a `None` key never matches. -/
def dictGetOpt (d : List (String × SerializerClass)) (key : Option String)
    (dflt : SerializerClass) : SerializerClass :=
  match key with
  | some k => dictGet d k dflt
  | none => dflt

/-- Django `QueryDict.get(key)`: first value for the key, else `None`. -/
def queryGet (params : List (String × String)) (key : String) :
    Option String :=
  (params.find? (fun kv => kv.1 = key)).map (fun kv => kv.2)

/-- Outcome of executing a Python statement that leaves the enclosing
function: an explicit `return` or a raised exception. -/
inductive PyOutcome (α : Type) where
  | returned (value : α)
  | raised (exc : String)
deriving DecidableEq, Repr

/-- Sequencing of Python statements at the end of a function body: when
the first statement already left the function (returned or raised), the
statement after it never executes. -/
def pyThen {α : Type} (first next : Option (PyOutcome α)) :
    Option (PyOutcome α) :=
  match first with
  | some o => some o
  | none => next

/-- `ProductsDashboard.get_serializer_class`, statement-faithful: the
`if`/`elif` chain on `self.suffix`, then the unconditional
`return self.list_serializer_class`, then the
`raise NotImplementedError(msg)` written after it in the source. -/
def get_serializer_class (cfg : ShopConfig) (vs : ProductsDashboard) :
    Option (PyOutcome SerializerClass) :=
  pyThen
    (if vs.suffix = "List" then
      some (.returned vs.list_serializer_class)
    else if vs.suffix = "Instance" then
      let inst := get_object vs
      some (.returned (dictGet vs.detail_serializer_classes
        inst.options.label_lower (ProductSerializer cfg)))
    else if vs.suffix = "New" then
      let model := queryGet vs.request.GET "model"
      some (.returned (dictGetOpt vs.detail_serializer_classes model
        (ProductSerializer cfg)))
    else none)
    (pyThen
      (some (.returned vs.list_serializer_class))
      (some (.raised "NotImplementedError")))

/-- The serializer class `get_serializer_class` returns.  The method
always returns (the `if`/`elif` chain is followed by an unconditional
`return`, so the trailing `raise` never executes); the second arm of this
match is therefore never taken. -/
def get_serializer_class_value (cfg : ShopConfig) (vs : ProductsDashboard) :
    SerializerClass :=
  match get_serializer_class cfg vs with
  | some (.returned c) => c
  | _ => vs.list_serializer_class

/-- Class-level mutable state: each serializer class's current
`Meta.fields`, keyed by class name. -/
abbrev ClassState := List (String × List String)

/-- Read a serializer class's current `Meta.fields`. -/
def lookupFields (st : ClassState) (n : String) : List String :=
  match st with
  | [] => []
  | (k, v) :: rest => if k = n then v else lookupFields rest n

/-- Reassign a serializer class's `Meta.fields`
(`serializer_class.Meta.fields = list_fields`). -/
def setFields (st : ClassState) (n : String) (fs : List String) :
    ClassState :=
  match st with
  | [] => [(n, fs)]
  | (k, v) :: rest =>
    if k = n then (n, fs) :: rest else (k, v) :: setFields rest n fs

/-- `ProductsDashboard.get_list_display`: the `list_display` attribute
when the instance has one, else the list serializer class's current
`Meta.fields`. -/
def get_list_display (vs : ProductsDashboard) (st : ClassState) :
    List String :=
  match vs.list_display with
  | some fields => fields
  | none => lookupFields st vs.list_serializer_class.name

/-- `ProductsDashboard.get_list_display_links`: the
`list_display_links` attribute when present, else the first entry of
`get_list_display`. -/
def get_list_display_links (vs : ProductsDashboard) (st : ClassState) :
    List String :=
  match vs.list_display_links with
  | some links => links
  | none => (get_list_display vs st).take 1

/-- A serializer instance as `get_serializer` constructs it: the selected
class, the positional instance argument (when given), the `data` keyword
argument (when given), the `many` flag, and the `label='dashboard'`
keyword the method always adds. -/
structure Serializer where
  cls : SerializerClass
  objArg : Option Instance
  dataArg : Option RequestData
  many : Bool
  label : String
deriving DecidableEq, Repr

/-- The arguments the dashboard's actions pass to `get_serializer`. -/
structure SerKwargs where
  objArg : Option Instance
  dataArg : Option RequestData
  many : Bool
deriving DecidableEq, Repr

/-- `ProductsDashboard.get_serializer`: select the class, and when
`kwargs.get('many', False)` holds, reassign that class's `Meta.fields`
to `['pk']` extended with `get_list_display()` before instantiating. -/
def get_serializer (cfg : ShopConfig) (vs : ProductsDashboard)
    (st : ClassState) (kw : SerKwargs) : Serializer × ClassState :=
  let serializer_class := get_serializer_class_value cfg vs
  let st2 :=
    if kw.many then
      let list_fields := "pk" :: get_list_display vs st
      setFields st serializer_class.name list_fields
    else st
  ({ cls := serializer_class
   , objArg := kw.objArg
   , dataArg := kw.dataArg
   , many := kw.many
   , label := "dashboard" }, st2)

/-- DRF `serializer.is_valid()`: the serializer's verdict on the data it
was bound to (never called without data in this file). -/
def is_valid (s : Serializer) : Bool :=
  match s.dataArg with
  | some d => d.valid
  | none => false

/-- `DashboardRouter.get_breadcrumbs`: the dashboard root entry. -/
def DashboardRouter_get_breadcrumbs (cfg : ShopConfig) :
    List (String × String) :=
  [("Dashboard", cfg.reverse "dashboard:root")]

/-- `ProductsDashboard.get_breadcrumbs`: the router's root entry, then
the product model's plural verbose name linked to the product list, then
a suffix-dependent tail. -/
def get_breadcrumbs (cfg : ShopConfig) (vs : ProductsDashboard) :
    List (String × String) :=
  let breadcrumbs := DashboardRouter_get_breadcrumbs cfg
    ++ [(cfg.productMetaVerboseNamePlural,
         cfg.reverse "dashboard:product-list")]
  if vs.suffix = "Instance" then
    breadcrumbs ++ [((get_object vs).strRepr, vs.request.path_info)]
  else if vs.suffix = "New" then
    let options := (get_serializer_class_value cfg vs).metaModel
    breadcrumbs ++ [("Add " ++ options.verbose_name, vs.request.path_info)]
  else
    breadcrumbs

/-- Django `get_permission_codename(action, opts)`:
`'%s_%s' % (action, opts.model_name)`. -/
def get_permission_codename (action : String) (opts : ModelMeta) :
    String :=
  action ++ "_" ++ opts.model_name

/-- `ProductsDashboard.has_add_permission`: a single call into the auth
layer with `'{APP_LABEL}.{add codename}'`. -/
def has_add_permission (cfg : ShopConfig) (vs : ProductsDashboard) :
    Bool :=
  let codename := get_permission_codename "add" cfg.productOptions
  vs.request.user.has_perm (cfg.APP_LABEL ++ "." ++ codename)

/-- A value placed in a `Response` context dict by the actions. -/
inductive CtxVal where
  | ser (s : Serializer)
  | inst (i : Instance)
deriving DecidableEq, Repr

/-- What an action hands back to the framework: a template `Response`
with a context dict, or a `redirect` to a named view. -/
inductive ActionResult where
  | response (ctx : List (String × CtxVal))
  | redirect (viewname : String)
deriving DecidableEq, Repr

/-- Everything observable about one action call: the returned value
(`none` models a Python function falling off its end and returning
`None`), the class-level `Meta.fields` state afterwards, and the
serializer whose `save()` was called, if any. -/
structure ActionOutcome where
  result : Option ActionResult
  classState : ClassState
  savedWith : Option Serializer
deriving DecidableEq, Repr

/-- `ProductsDashboard.new`: render an unbound serializer. -/
def new (cfg : ShopConfig) (vs : ProductsDashboard) (st : ClassState) :
    ActionOutcome :=
  let (serializer, st2) := get_serializer cfg vs st
    { objArg := none, dataArg := none, many := false }
  { result := some (.response [("serializer", .ser serializer)])
  , classState := st2
  , savedWith := none }

/-- `ProductsDashboard.create`: bind the posted data; on a valid
serializer save and redirect to the product list, otherwise re-render
the form with the serializer. -/
def create (cfg : ShopConfig) (vs : ProductsDashboard) (st : ClassState) :
    ActionOutcome :=
  let (serializer, st2) := get_serializer cfg vs st
    { objArg := none, dataArg := some vs.request.data, many := false }
  if is_valid serializer then
    { result := some (.redirect "dashboard:product-list")
    , classState := st2
    , savedWith := some serializer }
  else
    { result := some (.response [("serializer", .ser serializer)])
    , classState := st2
    , savedWith := none }

/-- `ProductsDashboard.retrieve`: fetch the instance, serialize it, and
respond with both. -/
def retrieve (cfg : ShopConfig) (vs : ProductsDashboard)
    (st : ClassState) : ActionOutcome :=
  let inst := get_object vs
  let (serializer, st2) := get_serializer cfg vs st
    { objArg := some inst, dataArg := none, many := false }
  { result := some (.response
      [("serializer", .ser serializer), ("instance", .inst inst)])
  , classState := st2
  , savedWith := none }

/-- `ProductsDashboard.update`: fetch the instance, bind the posted data;
on a valid serializer save and redirect to the product list.  The source
has no statement after the `if` block, so on invalid data the function
falls off its end and returns Python `None`. -/
def update (cfg : ShopConfig) (vs : ProductsDashboard) (st : ClassState) :
    ActionOutcome :=
  let inst := get_object vs
  let (serializer, st2) := get_serializer cfg vs st
    { objArg := some inst, dataArg := some vs.request.data, many := false }
  if is_valid serializer then
    { result := some (.redirect "dashboard:product-list")
    , classState := st2
    , savedWith := some serializer }
  else
    { result := none
    , classState := st2
    , savedWith := none }

/-- One static `Route(...)` entry of the router's table: URL pattern,
HTTP-method-to-action mapping, route name, and the `suffix` initkwarg. -/
structure RouteSpec where
  url : String
  mapping : List (String × String)
  name : String
  suffix : Option String
deriving DecidableEq, Repr

/-- An entry of `DashboardRouter.routes`: a static route or the
dynamically generated detail route. -/
inductive RouterEntry where
  | static (r : RouteSpec)
  | dynamicDetail (url : String) (name : String)
deriving DecidableEq, Repr

/-- `DashboardRouter.routes`, as written in the source (brace
placeholders of the pattern strings spelled with \x7b / \x7d). -/
def DashboardRouter_routes : List RouterEntry :=
  [ .static
      { url := "^\x7bprefix\x7d\x7btrailing_slash\x7d$"
      , mapping := [("get", "list")]
      , name := "\x7bbasename\x7d-list"
      , suffix := some "List" }
  , .static
      { url := "^\x7bprefix\x7d/\x7blookup\x7d/change\x7btrailing_slash\x7d$"
      , mapping := [("get", "retrieve"), ("post", "update")]
      , name := "\x7bbasename\x7d-change"
      , suffix := some "Instance" }
  , .static
      { url := "^\x7bprefix\x7d/add\x7btrailing_slash\x7d$"
      , mapping := [("get", "new"), ("post", "create")]
      , name := "\x7bbasename\x7d-add"
      , suffix := some "New" }
  , .dynamicDetail
      "^\x7bprefix\x7d/\x7blookup\x7d/\x7bmethodname\x7d\x7btrailing_slash\x7d$"
      "\x7bbasename\x7d-\x7bmethodnamehyphen\x7d" ]

/-- The mapping of the static route registered under a given URL
pattern, when there is one. -/
def staticMappingOf (url : String) : Option (List (String × String)) :=
  (DashboardRouter_routes.filterMap (fun e =>
    match e with
    | .static r => if r.url = url then some r.mapping else none
    | .dynamicDetail _ _ => none)).head?

/-- A concrete deployment configuration for evaluating the embedding. -/
def cfg0 : ShopConfig :=
  { APP_LABEL := "shop"
  , productOptions :=
      { app_label := "shop"
      , model_name := "product"
      , label_lower := "shop.product"
      , verbose_name := "product"
      , verbose_name_plural := "products" }
  , productMetaVerboseNamePlural := "products"
  , reverse := fun viewname => "/dashboard/" ++ viewname }

/-- A concrete product-summary serializer class
(`app_settings.PRODUCT_SUMMARY_SERIALIZER`). -/
def listSC : SerializerClass :=
  { name := "ProductSummarySerializer", metaModel := cfg0.productOptions }

/-- A concrete authenticated user. -/
def user0 : User := { has_perm := fun _ => true }

/-- A concrete fetched product instance. -/
def inst0 : Instance :=
  { strRepr := "Smart Phone", options := cfg0.productOptions }

/-- A concrete dashboard view-set state with the given suffix and the
given validation verdict on the posted data. -/
def mkVS (sfx : String) (ok : Bool) : ProductsDashboard :=
  { suffix := sfx
  , list_serializer_class := listSC
  , detail_serializer_classes := []
  , list_display := none
  , list_display_links := none
  , request :=
      { GET := []
      , data := { valid := ok }
      , path_info := "/dashboard/products/1/change/"
      , user := user0 }
  , fetched := inst0 }

/-- A concrete class-level `Meta.fields` state. -/
def st0 : ClassState :=
  [("ProductSummarySerializer", ["product_name", "price"]),
   ("shop.serializers.bases.ProductSerializer",
    ["product_name", "price", "description"])]

/-- Helper: `get_serializer_class` always returns, and the returned
class is given by the `if`/`elif` chain with the unconditional trailing
`return` as fallback. -/
theorem get_serializer_class_spec (cfg : ShopConfig)
    (vs : ProductsDashboard) :
    get_serializer_class cfg vs =
      some (.returned (
        if vs.suffix = "List" then vs.list_serializer_class
        else if vs.suffix = "Instance" then
          dictGet vs.detail_serializer_classes
            (get_object vs).options.label_lower (ProductSerializer cfg)
        else if vs.suffix = "New" then
          dictGetOpt vs.detail_serializer_classes
            (queryGet vs.request.GET "model") (ProductSerializer cfg)
        else vs.list_serializer_class)) := by
  by_cases h1 : vs.suffix = "List" <;>
    by_cases h2 : vs.suffix = "Instance" <;>
      by_cases h3 : vs.suffix = "New" <;>
        simp [get_serializer_class, pyThen, h1, h2, h3]

/-- Helper: the value extracted from `get_serializer_class`. -/
theorem get_serializer_class_value_spec (cfg : ShopConfig)
    (vs : ProductsDashboard) :
    get_serializer_class_value cfg vs =
      (if vs.suffix = "List" then vs.list_serializer_class
       else if vs.suffix = "Instance" then
         dictGet vs.detail_serializer_classes
           (get_object vs).options.label_lower (ProductSerializer cfg)
       else if vs.suffix = "New" then
         dictGetOpt vs.detail_serializer_classes
           (queryGet vs.request.GET "model") (ProductSerializer cfg)
       else vs.list_serializer_class) := by
  unfold get_serializer_class_value
  rw [get_serializer_class_spec]

/-- Helper: reading a class's `Meta.fields` right after reassigning them
yields the assigned list. -/
theorem lookupFields_setFields (st : ClassState) (n : String)
    (fs : List String) : lookupFields (setFields st n fs) n = fs := by
  induction st with
  | nil => simp [setFields, lookupFields]
  | cons kv rest ih =>
    obtain ⟨k, v⟩ := kv
    by_cases h : k = n
    · simp [setFields, lookupFields, h]
    · simp [setFields, lookupFields, h, ih]

/-- Claim C1: the claim says that for every POST with serializer-invalid
data, both create (add route) and update (change route) re-render the
form with the serializer.  Evaluated at a concrete invalid POST:
`create` does return the form response, but `update` falls off the end of
its body and returns Python `None` — no response is returned at all. -/
theorem C1_update_falls_through :
    (update cfg0 (mkVS "Instance" false) st0).result = none
    ∧ (create cfg0 (mkVS "New" false) st0).result
        = some (.response [("serializer", .ser
            { cls := ProductSerializer cfg0
            , objArg := none
            , dataArg := some { valid := false }
            , many := false
            , label := "dashboard" })]) :=
  ⟨rfl, rfl⟩

/-- Claim C2: get_serializer_class selects by the suffix flag — for
'List' the list serializer class; for 'Instance' the
detail_serializer_classes entry keyed by the fetched instance's
lower-cased model label, defaulting to ProductSerializer; for 'New' the
entry keyed by the request's 'model' GET parameter, defaulting to
ProductSerializer. -/
theorem C2_get_serializer_class_selection (cfg : ShopConfig)
    (vs : ProductsDashboard) :
    (vs.suffix = "List" →
      get_serializer_class cfg vs
        = some (.returned vs.list_serializer_class))
    ∧ (vs.suffix = "Instance" →
      get_serializer_class cfg vs
        = some (.returned (dictGet vs.detail_serializer_classes
            (get_object vs).options.label_lower (ProductSerializer cfg))))
    ∧ (vs.suffix = "New" →
      get_serializer_class cfg vs
        = some (.returned (dictGetOpt vs.detail_serializer_classes
            (queryGet vs.request.GET "model") (ProductSerializer cfg)))) := by
  refine ⟨fun h => ?_, fun h => ?_, fun h => ?_⟩ <;>
    simp [get_serializer_class_spec, h]

/-- Witness for C2 at a concrete 'New' request with no 'model'
parameter. -/
theorem C2_witness :
    (mkVS "New" true).suffix = "New"
    ∧ get_serializer_class cfg0 (mkVS "New" true)
        = some (.returned (ProductSerializer cfg0)) :=
  ⟨rfl, (C2_get_serializer_class_selection cfg0 (mkVS "New" true)).2.2 rfl⟩

/-- Claim C3: on a POST whose data the serializer deems valid, create and
update each save via the serializer they built and return a redirect to
the product list view. -/
theorem C3_valid_post_saves_and_redirects (cfg : ShopConfig)
    (vs : ProductsDashboard) (st : ClassState)
    (h : vs.request.data.valid = true) :
    (create cfg vs st).result = some (.redirect "dashboard:product-list")
    ∧ (create cfg vs st).savedWith
        = some (get_serializer cfg vs st
            { objArg := none, dataArg := some vs.request.data
            , many := false }).1
    ∧ (update cfg vs st).result
        = some (.redirect "dashboard:product-list")
    ∧ (update cfg vs st).savedWith
        = some (get_serializer cfg vs st
            { objArg := some (get_object vs)
            , dataArg := some vs.request.data, many := false }).1 := by
  refine ⟨?_, ?_, ?_, ?_⟩ <;> simp [create, update, get_serializer, is_valid, h]

/-- Witness for C3 at a concrete valid POST on the change route. -/
theorem C3_witness :
    (mkVS "Instance" true).request.data.valid = true
    ∧ (update cfg0 (mkVS "Instance" true) st0).result
        = some (.redirect "dashboard:product-list") :=
  ⟨rfl,
   (C3_valid_post_saves_and_redirects cfg0 (mkVS "Instance" true) st0
     rfl).2.2.1⟩

/-- Claim C4: the router's static route table maps GET on the prefix URL
to 'list'; GET and POST on the change URL to 'retrieve' and 'update';
GET and POST on the add URL to 'new' and 'create' — and nothing else on
those patterns. -/
theorem C4_route_table :
    staticMappingOf "^\x7bprefix\x7d\x7btrailing_slash\x7d$"
      = some [("get", "list")]
    ∧ staticMappingOf
        "^\x7bprefix\x7d/\x7blookup\x7d/change\x7btrailing_slash\x7d$"
      = some [("get", "retrieve"), ("post", "update")]
    ∧ staticMappingOf "^\x7bprefix\x7d/add\x7btrailing_slash\x7d$"
      = some [("get", "new"), ("post", "create")] :=
  ⟨rfl, rfl, rfl⟩

/-- Claim C5: has_add_permission is exactly one call into the auth
layer: request.user.has_perm on the app label joined with the 'add'
permission codename derived from the product model's metadata. -/
theorem C5_has_add_permission_delegates (cfg : ShopConfig)
    (vs : ProductsDashboard) :
    has_add_permission cfg vs
      = vs.request.user.has_perm
          (cfg.APP_LABEL ++ "." ++
            get_permission_codename "add" cfg.productOptions) :=
  rfl

/-- Claim C6: breadcrumbs start with the Dashboard root entry and the
product model's plural verbose name linked to the product list; suffix
'Instance' appends the instance's string form, suffix 'New' appends
"Add" with the selected serializer's model verbose name, and any other
suffix yields exactly the two base entries. -/
theorem C6_breadcrumbs (cfg : ShopConfig) (vs : ProductsDashboard) :
    ((get_breadcrumbs cfg vs).take 2
      = [("Dashboard", cfg.reverse "dashboard:root"),
         (cfg.productMetaVerboseNamePlural,
          cfg.reverse "dashboard:product-list")])
    ∧ (vs.suffix = "Instance" →
      get_breadcrumbs cfg vs
        = [("Dashboard", cfg.reverse "dashboard:root"),
           (cfg.productMetaVerboseNamePlural,
            cfg.reverse "dashboard:product-list"),
           ((get_object vs).strRepr, vs.request.path_info)])
    ∧ (vs.suffix = "New" →
      get_breadcrumbs cfg vs
        = [("Dashboard", cfg.reverse "dashboard:root"),
           (cfg.productMetaVerboseNamePlural,
            cfg.reverse "dashboard:product-list"),
           ("Add " ++ (get_serializer_class_value cfg vs).metaModel.verbose_name,
            vs.request.path_info)])
    ∧ (vs.suffix ≠ "Instance" → vs.suffix ≠ "New" →
      get_breadcrumbs cfg vs
        = [("Dashboard", cfg.reverse "dashboard:root"),
           (cfg.productMetaVerboseNamePlural,
            cfg.reverse "dashboard:product-list")]) := by
  by_cases h1 : vs.suffix = "Instance" <;>
    by_cases h2 : vs.suffix = "New" <;>
      simp [get_breadcrumbs, DashboardRouter_get_breadcrumbs, h1, h2]

/-- Witness for C6 at a concrete 'New' request. -/
theorem C6_witness :
    (mkVS "New" true).suffix = "New"
    ∧ get_breadcrumbs cfg0 (mkVS "New" true)
        = [("Dashboard", "/dashboard/dashboard:root"),
           ("products", "/dashboard/dashboard:product-list"),
           ("Add product", "/dashboard/products/1/change/")] :=
  ⟨rfl, (C6_breadcrumbs cfg0 (mkVS "New" true)).2.2.1 rfl⟩

/-- Claim C7: retrieve fetches the instance, serializes it without
binding data, and returns a response holding exactly that serializer and
that instance; neither the instance nor the class-level field state is
modified and no save happens. -/
theorem C7_retrieve_passthrough (cfg : ShopConfig)
    (vs : ProductsDashboard) (st : ClassState)
    (h : vs.suffix = "Instance") :
    retrieve cfg vs st =
      { result := some (.response
          [("serializer", .ser
            { cls := get_serializer_class_value cfg vs
            , objArg := some (get_object vs)
            , dataArg := none
            , many := false
            , label := "dashboard" })
          , ("instance", .inst (get_object vs))])
      , classState := st
      , savedWith := none } :=
  rfl

/-- Witness for C7 at a concrete GET on the change route. -/
theorem C7_witness :
    (mkVS "Instance" true).suffix = "Instance"
    ∧ retrieve cfg0 (mkVS "Instance" true) st0
        = { result := some (.response
              [("serializer", .ser
                { cls := ProductSerializer cfg0
                , objArg := some inst0
                , dataArg := none
                , many := false
                , label := "dashboard" })
              , ("instance", .inst inst0)])
          , classState := st0
          , savedWith := none } :=
  ⟨rfl, C7_retrieve_passthrough cfg0 (mkVS "Instance" true) st0 rfl⟩

/-- Claim C8: when the serializer deems the posted data invalid, neither
create nor update calls save, so no record is created or modified. -/
theorem C8_no_save_on_invalid (cfg : ShopConfig)
    (vs : ProductsDashboard) (st : ClassState)
    (h : vs.request.data.valid = false) :
    (create cfg vs st).savedWith = none
    ∧ (update cfg vs st).savedWith = none := by
  refine ⟨?_, ?_⟩ <;> simp [create, update, get_serializer, is_valid, h]

/-- Witness for C8 at a concrete invalid POST. -/
theorem C8_witness :
    (mkVS "Instance" false).request.data.valid = false
    ∧ (create cfg0 (mkVS "Instance" false) st0).savedWith = none
    ∧ (update cfg0 (mkVS "Instance" false) st0).savedWith = none :=
  ⟨rfl,
   (C8_no_save_on_invalid cfg0 (mkVS "Instance" false) st0 rfl).1,
   (C8_no_save_on_invalid cfg0 (mkVS "Instance" false) st0 rfl).2⟩

/-- Claim C9: get_serializer_class is total — it returns on every input,
never reaches the trailing raise, and for any suffix other than 'List',
'Instance' and 'New' it returns the list serializer class. -/
theorem C9_total_no_raise (cfg : ShopConfig) (vs : ProductsDashboard) :
    (∃ c, get_serializer_class cfg vs = some (.returned c))
    ∧ (∀ exc, get_serializer_class cfg vs ≠ some (.raised exc))
    ∧ (vs.suffix ≠ "List" → vs.suffix ≠ "Instance" → vs.suffix ≠ "New" →
      get_serializer_class cfg vs
        = some (.returned vs.list_serializer_class)) := by
  refine ⟨⟨_, get_serializer_class_spec cfg vs⟩, fun exc => ?_,
    fun h1 h2 h3 => ?_⟩
  · rw [get_serializer_class_spec]
    simp
  · simp [get_serializer_class_spec, h1, h2, h3]

/-- Witness for C9 at a concrete unhandled suffix. -/
theorem C9_witness :
    ((mkVS "Destroy" true).suffix ≠ "List"
      ∧ (mkVS "Destroy" true).suffix ≠ "Instance"
      ∧ (mkVS "Destroy" true).suffix ≠ "New")
    ∧ get_serializer_class cfg0 (mkVS "Destroy" true)
        = some (.returned listSC) :=
  ⟨⟨by decide, by decide, by decide⟩,
   (C9_total_no_raise cfg0 (mkVS "Destroy" true)).2.2
     (by decide) (by decide) (by decide)⟩

/-- Claim C10: get_serializer with many=True reassigns the selected
serializer class's Meta.fields to 'pk' followed by the list display
fields, and the reassignment persists in the class-level state after the
call; with many=False the class-level state is unchanged. -/
theorem C10_many_mutates_meta_fields (cfg : ShopConfig)
    (vs : ProductsDashboard) (st : ClassState) (kw : SerKwargs) :
    (kw.many = true →
      (get_serializer cfg vs st kw).2
        = setFields st (get_serializer_class_value cfg vs).name
            ("pk" :: get_list_display vs st)
      ∧ lookupFields (get_serializer cfg vs st kw).2
          (get_serializer_class_value cfg vs).name
        = "pk" :: get_list_display vs st)
    ∧ (kw.many = false → (get_serializer cfg vs st kw).2 = st) := by
  constructor <;> intro h <;>
    simp [get_serializer, h, lookupFields_setFields]

/-- Witness for C10 at a concrete many=True list call. -/
theorem C10_witness :
    ({ objArg := none, dataArg := none, many := true } : SerKwargs).many
      = true
    ∧ lookupFields
        (get_serializer cfg0 (mkVS "List" true) st0
          { objArg := none, dataArg := none, many := true }).2
        (get_serializer_class_value cfg0 (mkVS "List" true)).name
      = ["pk", "product_name", "price"] :=
  ⟨rfl,
   ((C10_many_mutates_meta_fields cfg0 (mkVS "List" true) st0
      { objArg := none, dataArg := none, many := true }).1 rfl).2⟩
